import Mathlib

/-!
Shallow embedding of the multiversx-openclaw-relayer core:
the proof-of-work challenge manager, the quota manager, the shard-aware
relayer-address manager, and the `signAndRelay` orchestration pipeline of
`RelayerService`.  Stateful TypeScript classes become explicit state
passing; external collaborators (network provider, crypto primitives)
become explicit parameters; JavaScript truthiness and out-of-range
indexing are modelled where the source relies on them.
-/

namespace Relayer

/-! ### ChallengeManager (src/services/ChallengeManager.ts) -/

/-- A proof-of-work challenge entry, keyed by identity address. -/
structure Challenge where
  address : String
  target : String
  salt : String
  difficulty : Nat
  expiresAt : Int
deriving Repr, DecidableEq

/-- The in-memory challenge table `Map<string, Challenge>`. -/
def ChallengeState : Type := String → Option Challenge

/-- `this.challenges.delete(address)`. -/
def challengeDelete (address : String) (t : ChallengeState) : ChallengeState :=
  fun a => if a = address then none else t a

/-- `this.challenges.set(address, challenge)`. -/
def challengeSet (address : String) (c : Challenge) (t : ChallengeState) : ChallengeState :=
  fun a => if a = address then some c else t a

/-- `ChallengeManager.getChallenge`: the random salt and the current time are
passed in explicitly (the source draws the salt from `randomBytes` and the
time from `Date.now()`). -/
def getChallenge (difficultyBits : Nat) (ttlMs : Int) (salt : String) (now : Int)
    (t : ChallengeState) (address : String) : Challenge × ChallengeState :=
  let c : Challenge := ⟨address, address, salt, difficultyBits, now + ttlMs⟩
  (c, challengeSet address c t)

/-- `ChallengeManager.checkDifficulty`: the digest must start with
`difficulty` zero bits.  Out-of-range reads of `hash[i]` follow JavaScript:
in the full-byte loop `undefined !== 0` makes the check fail, while in the
remaining-bits comparison `undefined >= n` is false so the check passes. -/
def checkDifficulty (hash : List Nat) (difficulty : Nat) : Bool :=
  let fullBytes := difficulty / 8
  let remainingBits := difficulty % 8
  let fullOk := (List.range fullBytes).all (fun i => hash.get? i == some 0)
  let remOk :=
    if remainingBits > 0 then
      match hash.get? fullBytes with
      | some lastByte => decide (lastByte < 2 ^ (8 - remainingBits))
      | none => true
    else true
  fullOk && remOk

/-- `ChallengeManager.verifySolution`: the SHA-256 digest function is passed
in as the external crypto primitive `sha256`, and `Date.now()` as `now`.
Returns the boolean result together with the updated challenge table. -/
def verifySolution (sha256 : String → List Nat) (now : Int)
    (t : ChallengeState) (address nonce : String) : Bool × ChallengeState :=
  match t address with
  | none => (false, t)
  | some challenge =>
    if now > challenge.expiresAt then
      (false, challengeDelete address t)
    else
      let hash := sha256 (challenge.address ++ challenge.salt ++ nonce)
      if !checkDifficulty hash challenge.difficulty then
        (false, t)
      else
        (true, challengeDelete address t)

/-! ### QuotaManager (src/services/QuotaManager.ts) -/

/-- One row of the `quotas` table: `count` and `last_reset`. -/
structure QuotaRecord where
  count : Nat
  lastReset : Int
deriving Repr, DecidableEq

/-- The persisted `quotas` table, keyed by address. -/
def QuotaState : Type := String → Option QuotaRecord

/-- SQL `INSERT`/`UPDATE` of one row keyed by address. -/
def quotaUpdate (address : String) (r : QuotaRecord) (q : QuotaState) : QuotaState :=
  fun a => if a = address then some r else q a

/-- `QuotaManager.checkLimit`: no row means allowed; an elapsed window is
reset lazily (count back to 0, `last_reset` to `now`) and allowed; otherwise
allowed exactly when `count < limit`.  Returns the boolean together with the
updated table. -/
def checkLimit (resetIntervalMs : Int) (limit : Nat) (now : Int)
    (q : QuotaState) (address : String) : Bool × QuotaState :=
  match q address with
  | none => (true, q)
  | some row =>
    if now - row.lastReset > resetIntervalMs then
      (true, quotaUpdate address ⟨0, now⟩ q)
    else
      (decide (row.count < limit), q)

/-- `QuotaManager.incrementUsage`: insert a fresh row with count 1, or
increment the existing count in place leaving `last_reset` untouched. -/
def incrementUsage (now : Int) (q : QuotaState) (address : String) : QuotaState :=
  match q address with
  | none => quotaUpdate address ⟨1, now⟩ q
  | some row => quotaUpdate address ⟨row.count + 1, row.lastReset⟩ q

/-! ### RelayerAddressManager (src/services/RelayerAddressManager.ts) -/

/-- `getShardFromAddress`: the last byte of the 32-byte public key masked
with `0x03`; if the result exceeds `numShards - 1 = 2`, remask with `0x01`.
A missing byte reads as 0, as `undefined & 3 === 0` in JavaScript. -/
def getShardFromAddress (pubKey : List Nat) : Nat :=
  let lastByte := pubKey.getD 31 0
  let shard := lastByte &&& 3
  if shard > 2 then lastByte &&& 1 else shard

/-- The manager's two shard-keyed maps; a loaded credential is represented
by its bech32 address (the key material itself is an external primitive). -/
structure RelayerAddressManager where
  signers : Nat → Option String
  addresses : Nat → Option String

/-- `RelayerAddressManager.getRelayerAddressForUser`: identity's shard, then
the `addresses` map; a missing entry throws. -/
def getRelayerAddressForUser (mgr : RelayerAddressManager)
    (userPubKey : List Nat) : Except String String :=
  let shard := getShardFromAddress userPubKey
  match mgr.addresses shard with
  | none => .error ("No relayer configured for shard " ++ toString shard)
  | some a => .ok a

/-- `RelayerAddressManager.getSignerForUser`: identity's shard, then the
`signers` map; a missing entry throws. -/
def getSignerForUser (mgr : RelayerAddressManager)
    (userPubKey : List Nat) : Except String String :=
  let shard := getShardFromAddress userPubKey
  match mgr.signers shard with
  | none => .error ("No relayer configured for shard " ++ toString shard)
  | some s => .ok s

/-! ### RelayerService (src/services/RelayerService.ts) -/

/-- Outcome of `provider.queryContract`: either the call throws, or it
returns a response whose `returnData`/`returnDataParts` field is `none`
when both fields are absent and otherwise holds the already base64-decoded
byte arrays. -/
inductive QueryOutcome where
  | throws (msg : String)
  | returns (returnData : Option (List (List Nat)))
deriving Repr, DecidableEq

/-- Big-endian interpretation of a byte buffer, as
`BigInt('0x' + raw.toString('hex'))`. -/
def beNat (raw : List Nat) : Nat :=
  raw.foldl (fun acc b => acc * 256 + b) 0

/-- `RelayerService.isAuthorized`: with no configured registry, fail open;
with a registry, a thrown query, missing or empty return data, an empty
buffer, or a decoded agent id of 0 all mean not authorized. -/
def isAuthorized (registryAddresses : List String) (q : QueryOutcome) : Bool :=
  if registryAddresses.length = 0 then
    true
  else
    match q with
    | .throws _ => false
    | .returns returnData =>
      match returnData with
      | none => false
      | some parts =>
        match parts with
        | [] => false
        | raw :: _ =>
          let agentId := if raw.length > 0 then beNat raw else 0
          decide (agentId > 0)

/-- The `execution` object of a simulation result. -/
structure ExecutionInfo where
  result : Option String
  message : Option String
deriving Repr, DecidableEq

/-- `ISimulationResult`: each field is `none` when absent. -/
structure SimResult where
  statusStatus : Option String
  rawStatus : Option String
  execution : Option ExecutionInfo
  resultExecution : Option ExecutionInfo
  error : Option String
deriving Repr, DecidableEq

/-- JavaScript `a || b` on optional strings: `undefined` and the empty
string are falsy. -/
def jsOrStr (a b : Option String) : Option String :=
  match a with
  | some s => if s = "" then b else some s
  | none => b

/-- JavaScript `a || b` on optional objects: any present object is truthy. -/
def jsOrExec (a b : Option ExecutionInfo) : Option ExecutionInfo :=
  match a with
  | some e => some e
  | none => b

/-- `simulationResult?.execution || simulationResult?.result?.execution`. -/
def simExecution (sim : SimResult) : Option ExecutionInfo :=
  jsOrExec sim.execution sim.resultExecution

/-- `statusFromStatus || statusFromRaw || execution?.result`. -/
def simResultStatus (sim : SimResult) : Option String :=
  jsOrStr sim.statusStatus (jsOrStr sim.rawStatus ((simExecution sim).bind ExecutionInfo.result))

/-- `execution?.message || simulationResult?.error || 'Unknown error'`. -/
def simFailureMessage (sim : SimResult) : String :=
  (jsOrStr ((simExecution sim).bind ExecutionInfo.message)
    (jsOrStr sim.error (some "Unknown error"))).getD ""

/-- The distinguishable rejection categories thrown by `signAndRelay`
(each corresponds to one `throw` site in the source).  `providerError`
is a simulation-call exception rethrown unchanged. -/
inductive RelayError where
  | quotaExceeded
  | unauthorized
  | invalidSignature
  | notFound (msg : String)
  | invalidRelayer
  | invalidVersion
  | providerError (msg : String)
  | simulationFailed (msg : String)
  | broadcastFailed (msg : String)
deriving Repr, DecidableEq

/-- The network calls a pipeline run can make, in order. -/
inductive NetCall where
  | registryQuery
  | simulate
  | broadcast
deriving Repr, DecidableEq

/-- The inner transaction, as the fields `signAndRelay` reads: the sender's
bech32 address and raw public key, the declared relayer (`none` models the
unset field), the version, and the relayer-signature slot. -/
structure Tx where
  senderBech32 : String
  senderPubKey : List Nat
  relayer : Option String
  version : Nat
  relayerSignature : Option String
deriving Repr, DecidableEq

/-- The external collaborators of one pipeline run: the registry query
outcome, the result of inner-signature verification, the co-signature the
shard credential would produce, and the simulation and broadcast outcomes. -/
structure Env where
  queryOutcome : QueryOutcome
  sigValid : Bool
  relayerSign : String
  simOutcome : Except String SimResult
  sendOutcome : Except String String

/-- Relayer configuration: quota parameters and registry addresses. -/
structure Config where
  resetIntervalMs : Int
  quotaLimit : Nat
  registryAddresses : List String

/-- What one `signAndRelay` run produces: the returned hash or thrown
rejection, the network calls made, the final quota and challenge tables,
and the transaction's relayer-signature field after the run. -/
structure RunResult where
  outcome : Except RelayError String
  calls : List NetCall
  quota : QuotaState
  challenges : ChallengeState
  relayerSignature : Option String

/-- `tx.relayer && tx.relayer.toBech32() === relayerAddress.bech32()`. -/
def relayerMatches (declared : Option String) (relayerAddress : String) : Bool :=
  match declared with
  | none => false
  | some a => a = relayerAddress

/-- `RelayerService.signAndRelay`: quota gate, authorization gate (registry
or challenge), signature gate, shard binding and version gate, co-sign,
simulation, broadcast with quota increment.  `tCheck`, `tVerify` and `tInc`
are the successive `Date.now()` readings. -/
def signAndRelay (cfg : Config) (mgr : RelayerAddressManager)
    (sha256 : String → List Nat) (env : Env)
    (tCheck tVerify tInc : Int)
    (quota : QuotaState) (chal : ChallengeState)
    (tx : Tx) (challengeNonce : Option String) : RunResult :=
  let q1 := checkLimit cfg.resetIntervalMs cfg.quotaLimit tCheck quota tx.senderBech32
  if !q1.1 then
    ⟨.error .quotaExceeded, [], q1.2, chal, tx.relayerSignature⟩
  else
    let authCalls := if cfg.registryAddresses.length = 0 then [] else [NetCall.registryQuery]
    let isRegistered := isAuthorized cfg.registryAddresses env.queryOutcome
    let av :=
      if isRegistered then
        (true, chal)
      else
        match challengeNonce with
        | none => (false, chal)
        | some nonce => verifySolution sha256 tVerify chal tx.senderBech32 nonce
    if !av.1 then
      ⟨.error .unauthorized, authCalls, q1.2, av.2, tx.relayerSignature⟩
    else if !env.sigValid then
      ⟨.error .invalidSignature, authCalls, q1.2, av.2, tx.relayerSignature⟩
    else
      match getSignerForUser mgr tx.senderPubKey with
      | .error msg =>
        ⟨.error (.notFound msg), authCalls, q1.2, av.2, tx.relayerSignature⟩
      | .ok relayerAddress =>
        if !relayerMatches tx.relayer relayerAddress then
          ⟨.error .invalidRelayer, authCalls, q1.2, av.2, tx.relayerSignature⟩
        else if tx.version < 2 then
          ⟨.error .invalidVersion, authCalls, q1.2, av.2, tx.relayerSignature⟩
        else
          let sig := some env.relayerSign
          match env.simOutcome with
          | .error e =>
            ⟨.error (.providerError e), authCalls ++ [.simulate], q1.2, av.2, sig⟩
          | .ok sim =>
            if simResultStatus sim ≠ some "success" then
              ⟨.error (.simulationFailed (simFailureMessage sim)),
                authCalls ++ [.simulate], q1.2, av.2, sig⟩
            else
              match env.sendOutcome with
              | .ok hash =>
                ⟨.ok hash, authCalls ++ [.simulate, .broadcast],
                  incrementUsage tInc q1.2 tx.senderBech32, av.2, sig⟩
              | .error e =>
                ⟨.error (.broadcastFailed e), authCalls ++ [.simulate, .broadcast],
                  q1.2, av.2, sig⟩

/-! ### Theorems -/

/-- Claim C3: `checkLimit` returns true when no quota record exists; when a
record exists and `now - windowStart` exceeds the reset interval it resets
the count to 0, updates the window start to `now`, and returns true;
otherwise it returns true exactly when `count < limit`, so it returns false
precisely when the count has reached the limit within the current window. -/
theorem checkLimit_spec (resetIntervalMs : Int) (limit : Nat) (now : Int)
    (q : QuotaState) (address : String) :
    (q address = none →
      checkLimit resetIntervalMs limit now q address = (true, q)) ∧
    (∀ r, q address = some r → now - r.lastReset > resetIntervalMs →
      checkLimit resetIntervalMs limit now q address
        = (true, quotaUpdate address ⟨0, now⟩ q)) ∧
    (∀ r, q address = some r → ¬(now - r.lastReset > resetIntervalMs) →
      checkLimit resetIntervalMs limit now q address = (decide (r.count < limit), q) ∧
      ((checkLimit resetIntervalMs limit now q address).1 = false ↔ limit ≤ r.count)) := by
  refine ⟨fun h => by simp [checkLimit, h], fun r hr hw => by simp [checkLimit, hr, hw],
    fun r hr hw => ?_⟩
  constructor
  · simp [checkLimit, hr, hw]
  · simp [checkLimit, hr, hw, Nat.not_lt]

/-- Witness for C3 at concrete inputs: a full record within its window is
rejected, an elapsed window resets, and an unknown identity passes. -/
theorem checkLimit_spec_witness :
    checkLimit 86400000 10 100 (fun a => if a = "alice" then some ⟨10, 0⟩ else none) "alice"
      = (false, fun a => if a = "alice" then some ⟨10, 0⟩ else none) ∧
    checkLimit 86400000 10 86400002 (fun a => if a = "alice" then some ⟨10, 0⟩ else none) "alice"
      = (true, quotaUpdate "alice" ⟨0, 86400002⟩
          (fun a => if a = "alice" then some ⟨10, 0⟩ else none)) ∧
    checkLimit 86400000 10 100 (fun a => if a = "alice" then some ⟨10, 0⟩ else none) "bob"
      = (true, fun a => if a = "alice" then some ⟨10, 0⟩ else none) := by
  refine ⟨?_, ?_, ?_⟩
  · exact ((checkLimit_spec 86400000 10 100
      (fun a => if a = "alice" then some ⟨10, 0⟩ else none) "alice").2.2
      ⟨10, 0⟩ (by decide) (by decide)).1
  · exact (checkLimit_spec 86400000 10 86400002
      (fun a => if a = "alice" then some ⟨10, 0⟩ else none) "alice").2.1
      ⟨10, 0⟩ (by decide) (by decide)
  · exact (checkLimit_spec 86400000 10 100
      (fun a => if a = "alice" then some ⟨10, 0⟩ else none) "bob").1 (by decide)

/-- Claim C8: `incrementUsage` creates a record with count 1 and window
start `now` when none exists, and otherwise increments the count in place
without touching the stored window start — in particular an identity whose
window has already elapsed still has its stale counter incremented. -/
theorem incrementUsage_spec (now : Int) (q : QuotaState) (address : String) :
    (q address = none →
      incrementUsage now q address = quotaUpdate address ⟨1, now⟩ q) ∧
    (∀ r, q address = some r →
      incrementUsage now q address = quotaUpdate address ⟨r.count + 1, r.lastReset⟩ q) ∧
    (∀ r resetIntervalMs, q address = some r → now - r.lastReset > resetIntervalMs →
      (incrementUsage now q address) address = some ⟨r.count + 1, r.lastReset⟩) := by
  refine ⟨fun h => by simp [incrementUsage, h], fun r hr => by simp [incrementUsage, hr],
    fun r interval hr _ => by simp [incrementUsage, hr, quotaUpdate]⟩

/-- Witness for C8 at concrete inputs: a fresh identity gets count 1, and
an identity whose window elapsed 100 ms ago keeps its old window start. -/
theorem incrementUsage_spec_witness :
    incrementUsage 5 (fun _ => none) "carol" = quotaUpdate "carol" ⟨1, 5⟩ (fun _ => none) ∧
    (incrementUsage 86400100 (fun a => if a = "dave" then some ⟨3, 0⟩ else none) "dave") "dave"
      = some ⟨4, 0⟩ := by
  refine ⟨(incrementUsage_spec 5 (fun _ => none) "carol").1 rfl, ?_⟩
  exact (incrementUsage_spec 86400100
    (fun a => if a = "dave" then some ⟨3, 0⟩ else none) "dave").2.2
    ⟨3, 0⟩ 86400000 (by decide) (by decide)

/-- Claim C2: `verifySolution` returns false leaving the table unchanged
when no entry exists; returns false and deletes the entry when it is
expired; returns false leaving the entry intact when the entry is live but
the digest of `identity ++ salt ++ nonce` fails the difficulty predicate;
and returns true and deletes the entry when the predicate passes, after
which every further `verifySolution` call for that identity returns false
until `getChallenge` installs a fresh entry. -/
theorem verifySolution_spec (sha256 : String → List Nat) (t : ChallengeState)
    (address nonce : String) (now : Int) :
    (t address = none → verifySolution sha256 now t address nonce = (false, t)) ∧
    (∀ c, t address = some c → now > c.expiresAt →
      verifySolution sha256 now t address nonce = (false, challengeDelete address t) ∧
      (challengeDelete address t) address = none) ∧
    (∀ c, t address = some c → ¬(now > c.expiresAt) →
      checkDifficulty (sha256 (c.address ++ c.salt ++ nonce)) c.difficulty = false →
      verifySolution sha256 now t address nonce = (false, t)) ∧
    (∀ c, t address = some c → ¬(now > c.expiresAt) →
      checkDifficulty (sha256 (c.address ++ c.salt ++ nonce)) c.difficulty = true →
      verifySolution sha256 now t address nonce = (true, challengeDelete address t) ∧
      (∀ nonce2 now2,
        (verifySolution sha256 now2 (challengeDelete address t) address nonce2).1 = false) ∧
      (∀ dB ttl salt now3,
        ((getChallenge dB ttl salt now3 (challengeDelete address t) address).2) address
          = some ⟨address, address, salt, dB, now3 + ttl⟩)) := by
  refine ⟨fun h => by simp [verifySolution, h],
    fun c hc hexp => ⟨by simp [verifySolution, hc, hexp], by simp [challengeDelete]⟩,
    fun c hc hexp hdiff => by simp [verifySolution, hc, hexp, hdiff],
    fun c hc hexp hdiff => ⟨by simp [verifySolution, hc, hexp, hdiff], ?_, ?_⟩⟩
  · intro nonce2 now2
    have hnone : (challengeDelete address t) address = none := by simp [challengeDelete]
    simp [verifySolution, hnone]
  · intro dB ttl salt now3
    simp [getChallenge, challengeSet]

/-- Witness for C2 at concrete inputs: with a constant all-zero digest and
a live entry of difficulty 18, verification succeeds and deletes the entry,
and a repeated verification for the same identity then fails. -/
theorem verifySolution_spec_witness :
    verifySolution (fun _ => List.replicate 32 0) 0
      (fun a => if a = "agent" then some ⟨"agent", "agent", "salt", 18, 1000⟩ else none)
      "agent" "n"
      = (true, challengeDelete "agent"
          (fun a => if a = "agent" then some ⟨"agent", "agent", "salt", 18, 1000⟩ else none)) ∧
    (verifySolution (fun _ => List.replicate 32 0) 0
      (challengeDelete "agent"
        (fun a => if a = "agent" then some ⟨"agent", "agent", "salt", 18, 1000⟩ else none))
      "agent" "n2").1 = false := by
  have h := (verifySolution_spec (fun _ => List.replicate 32 0)
    (fun a => if a = "agent" then some ⟨"agent", "agent", "salt", 18, 1000⟩ else none)
    "agent" "n" 0).2.2.2 ⟨"agent", "agent", "salt", 18, 1000⟩ (by decide) (by decide) (by decide)
  exact ⟨h.1, h.2.1 "n2" 0⟩

/-- Counterexample to claim C7 over every digest and every difficulty: on
the all-zero 32-byte digest at difficulty 257 the code's predicate holds —
the remainder check reads `hash[32]`, which is out of range, and the
JavaScript comparison `undefined >= 128` is false, so the check passes
vacuously — while the claimed byte-wise condition fails, since no byte
exists at index `257 / 8 = 32`. -/
theorem checkDifficulty_claim_cex :
    checkDifficulty (List.replicate 32 0) 257 = true ∧
    ¬((∀ i, i < 257 / 8 → (List.replicate 32 (0 : Nat)).get? i = some 0) ∧
      (257 % 8 > 0 →
        ∃ b, (List.replicate 32 (0 : Nat)).get? (257 / 8) = some b ∧
          b < 2 ^ (8 - 257 % 8))) := by
  constructor
  · decide
  · rintro ⟨-, hrem⟩
    obtain ⟨b, hb, -⟩ := hrem (by decide)
    simp [List.get?_eq_none] at hb

/-- Claim C7 as amended: for a 32-byte digest (the length SHA-256 actually
produces) and difficulty `d ≤ 256`, the proof-of-work predicate holds
exactly when the first `d / 8` bytes are zero and, when `d % 8 > 0`, the
byte at index `d / 8` is strictly below `2 ^ (8 - d % 8)`.  Outside this
domain the code diverges from the byte-wise reading via JavaScript
undefined-index semantics (see the counterexample above). -/
theorem checkDifficulty_spec (hash : List Nat) (difficulty : Nat)
    (hlen : hash.length = 32) (hd : difficulty ≤ 256) :
    checkDifficulty hash difficulty = true ↔
      ((∀ i, i < difficulty / 8 → hash.get? i = some 0) ∧
       (difficulty % 8 > 0 →
         ∃ b, hash.get? (difficulty / 8) = some b ∧ b < 2 ^ (8 - difficulty % 8))) := by
  unfold checkDifficulty
  rw [Bool.and_eq_true, List.all_eq_true]
  constructor
  · rintro ⟨hfull, hrem⟩
    refine ⟨fun i hi => ?_, fun h8 => ?_⟩
    · have := hfull i (List.mem_range.mpr hi)
      simpa using this
    · rw [if_pos h8] at hrem
      cases hx : hash.get? (difficulty / 8) with
      | none =>
        have hlen2 : hash.length ≤ difficulty / 8 := List.get?_eq_none.mp hx
        omega
      | some b =>
        rw [hx] at hrem
        exact ⟨b, rfl, by simpa using hrem⟩
  · rintro ⟨hfull, hrem⟩
    refine ⟨fun i hi => ?_, ?_⟩
    · have := hfull i (List.mem_range.mp hi)
      simpa using this
    · by_cases h8 : difficulty % 8 > 0
      · rw [if_pos h8]
        obtain ⟨b, hb, hblt⟩ := hrem h8
        rw [hb]
        simpa using hblt
      · rw [if_neg h8]

/-- Witness for C7 at a concrete input: the all-zero 32-byte digest clears
difficulty 18. -/
theorem checkDifficulty_spec_witness :
    checkDifficulty (List.replicate 32 0) 18 = true :=
  (checkDifficulty_spec (List.replicate 32 0) 18 (by decide) (by decide)).mpr
    ⟨fun i hi => by interval_cases i <;> rfl, fun _ => ⟨0, rfl, by decide⟩⟩

/-- Claim C4: for a 32-byte public key whose last byte is `b`, the shard is
`b &&& 3`, recomputed as `b &&& 1` when that exceeds `numShards - 1 = 2`;
the lookup functions return exactly the credential (or address) registered
for that shard and fail with the not-found error when none is registered;
consequently two identities with different shard outputs are bound to the
credentials of their respective shards. -/
theorem shard_binding_spec (mgr : RelayerAddressManager) (pk : List Nat) (b : Nat)
    (h31 : pk.get? 31 = some b) :
    (getShardFromAddress pk = if b &&& 3 > 2 then b &&& 1 else b &&& 3) ∧
    getShardFromAddress pk ≤ 2 ∧
    (∀ a, mgr.addresses (getShardFromAddress pk) = some a →
      getRelayerAddressForUser mgr pk = .ok a) ∧
    (mgr.addresses (getShardFromAddress pk) = none →
      getRelayerAddressForUser mgr pk
        = .error ("No relayer configured for shard " ++ toString (getShardFromAddress pk))) ∧
    (∀ s, mgr.signers (getShardFromAddress pk) = some s →
      getSignerForUser mgr pk = .ok s) ∧
    (mgr.signers (getShardFromAddress pk) = none →
      getSignerForUser mgr pk
        = .error ("No relayer configured for shard " ++ toString (getShardFromAddress pk))) ∧
    (∀ pk2 b2 a a2, pk2.get? 31 = some b2 →
      getShardFromAddress pk ≠ getShardFromAddress pk2 →
      mgr.addresses (getShardFromAddress pk) = some a →
      mgr.addresses (getShardFromAddress pk2) = some a2 →
      getRelayerAddressForUser mgr pk = .ok a ∧
      getRelayerAddressForUser mgr pk2 = .ok a2) := by
  have hb : pk.getD 31 0 = b := by
    rw [List.getD_eq_getElem?_getD, ← List.get?_eq_getElem?, h31]
    rfl
  have hshard : getShardFromAddress pk = if b &&& 3 > 2 then b &&& 1 else b &&& 3 := by
    simp only [getShardFromAddress, hb]
  have hle : getShardFromAddress pk ≤ 2 := by
    rw [hshard]
    split
    · have : b &&& 1 ≤ 1 := Nat.and_le_right
      omega
    · omega
  have haddr : ∀ (m : RelayerAddressManager) (pk3 : List Nat) (a : String),
      m.addresses (getShardFromAddress pk3) = some a →
      getRelayerAddressForUser m pk3 = .ok a := by
    intro m pk3 a ha
    simp [getRelayerAddressForUser, ha]
  refine ⟨hshard, hle, fun a ha => haddr mgr pk a ha,
    fun hnone => by simp [getRelayerAddressForUser, hnone],
    fun s hs => by simp [getSignerForUser, hs],
    fun hnone => by simp [getSignerForUser, hnone],
    fun pk2 b2 a a2 _ _ ha ha2 => ⟨haddr mgr pk a ha, haddr mgr pk2 a2 ha2⟩⟩

/-- Witness for C4 at a concrete input: a public key ending in byte 3 masks
to shard 3 with `&&& 3`, which exceeds 2, so it is remasked to shard
`3 &&& 1 = 1`; the registered address for shard 1 is returned while the
signer lookup, with no signer loaded, fails with the not-found error. -/
theorem shard_binding_spec_witness :
    getRelayerAddressForUser
      ⟨fun _ => none, fun s => if s = 1 then some "erd1relayershard1" else none⟩
      (List.replicate 31 0 ++ [3]) = .ok "erd1relayershard1" ∧
    getSignerForUser
      ⟨fun _ => none, fun s => if s = 1 then some "erd1relayershard1" else none⟩
      (List.replicate 31 0 ++ [3])
      = .error ("No relayer configured for shard "
          ++ toString (getShardFromAddress (List.replicate 31 0 ++ [3]))) := by
  have h := shard_binding_spec
    ⟨fun _ => none, fun s => if s = 1 then some "erd1relayershard1" else none⟩
    (List.replicate 31 0 ++ [3]) 3 (by decide)
  have hs : getShardFromAddress (List.replicate 31 0 ++ [3]) = 1 := by decide
  exact ⟨h.2.2.1 "erd1relayershard1" (by rw [hs]; rfl), h.2.2.2.2.2.1 (by rw [hs])⟩

/-- Claim C6: when the quota gate fails, `signAndRelay` rejects with the
quota-exceeded error and makes no registry, simulation, or broadcast call. -/
theorem quota_gate_first_spec (cfg : Config) (mgr : RelayerAddressManager)
    (sha256 : String → List Nat) (env : Env) (tCheck tVerify tInc : Int)
    (quota : QuotaState) (chal : ChallengeState) (tx : Tx) (nonce : Option String)
    (h : (checkLimit cfg.resetIntervalMs cfg.quotaLimit tCheck quota tx.senderBech32).1
      = false) :
    (signAndRelay cfg mgr sha256 env tCheck tVerify tInc quota chal tx nonce).outcome
      = .error .quotaExceeded ∧
    (signAndRelay cfg mgr sha256 env tCheck tVerify tInc quota chal tx nonce).calls = [] := by
  unfold signAndRelay
  simp [h]

/-- Witness for C6 at a concrete input: a sender whose count equals the
limit inside a live window is rejected before any network call. -/
theorem quota_gate_first_spec_witness :
    (signAndRelay ⟨86400000, 5, ["erd1registry"]⟩ ⟨fun _ => none, fun _ => none⟩
      (fun _ => []) ⟨.returns none, true, "rsig", .error "sim", .error "send"⟩ 10 10 10
      (fun a => if a = "s" then some ⟨5, 0⟩ else none) (fun _ => none)
      ⟨"s", List.replicate 32 0, none, 2, none⟩ none).outcome = .error .quotaExceeded ∧
    (signAndRelay ⟨86400000, 5, ["erd1registry"]⟩ ⟨fun _ => none, fun _ => none⟩
      (fun _ => []) ⟨.returns none, true, "rsig", .error "sim", .error "send"⟩ 10 10 10
      (fun a => if a = "s" then some ⟨5, 0⟩ else none) (fun _ => none)
      ⟨"s", List.replicate 32 0, none, 2, none⟩ none).calls = [] :=
  quota_gate_first_spec ⟨86400000, 5, ["erd1registry"]⟩ ⟨fun _ => none, fun _ => none⟩
    (fun _ => []) ⟨.returns none, true, "rsig", .error "sim", .error "send"⟩ 10 10 10
    (fun a => if a = "s" then some ⟨5, 0⟩ else none) (fun _ => none)
    ⟨"s", List.replicate 32 0, none, 2, none⟩ none (by decide)

/-- Claim C1: `isAuthorized` fails open when no registry is configured and
fails closed when the configured registry query throws or when the decoded
agent identifier is absent or zero; and a sender for whom `isAuthorized` is
false is rejected by `signAndRelay` as unauthorized whenever the
challenge-solution nonce is missing or fails `verifySolution`. -/
theorem authorization_policy_spec (q0 : QueryOutcome) (rs : List String) (msg : String)
    (raw : List Nat) (rest : List (List Nat))
    (cfg : Config) (mgr : RelayerAddressManager) (sha256 : String → List Nat) (env : Env)
    (tCheck tVerify tInc : Int) (quota : QuotaState) (chal : ChallengeState)
    (tx : Tx) (nonce : Option String)
    (hrs : rs ≠ []) (hraw : beNat raw = 0)
    (hq : (checkLimit cfg.resetIntervalMs cfg.quotaLimit tCheck quota tx.senderBech32).1
      = true)
    (hauth : isAuthorized cfg.registryAddresses env.queryOutcome = false)
    (hnonce : ∀ n, nonce = some n →
      (verifySolution sha256 tVerify chal tx.senderBech32 n).1 = false) :
    isAuthorized [] q0 = true ∧
    isAuthorized rs (.throws msg) = false ∧
    isAuthorized rs (.returns none) = false ∧
    isAuthorized rs (.returns (some [])) = false ∧
    isAuthorized rs (.returns (some (raw :: rest))) = false ∧
    (signAndRelay cfg mgr sha256 env tCheck tVerify tInc quota chal tx nonce).outcome
      = .error .unauthorized := by
  have hlen : rs.length ≠ 0 := by simpa [List.length_eq_zero] using hrs
  refine ⟨by simp [isAuthorized], by simp [isAuthorized, hlen], by simp [isAuthorized, hlen],
    by simp [isAuthorized, hlen], ?_, ?_⟩
  · simp only [isAuthorized, if_neg hlen]
    split <;> simp [hraw]
  · unfold signAndRelay
    simp only [hq, hauth]
    cases hn : nonce with
    | none => simp
    | some n => simp [hnonce n hn]

/-- Witness for C1 at concrete inputs: with one configured registry whose
query throws and no challenge nonce supplied, a sender within quota is
rejected as unauthorized; the no-registry, throwing-query, empty-data and
zero-id evaluations of `isAuthorized` are instantiated alongside. -/
theorem authorization_policy_spec_witness :
    isAuthorized [] (.returns none) = true ∧
    isAuthorized ["erd1registry"] (.throws "ECONNREFUSED") = false ∧
    isAuthorized ["erd1registry"] (.returns none) = false ∧
    isAuthorized ["erd1registry"] (.returns (some [])) = false ∧
    isAuthorized ["erd1registry"] (.returns (some ([0, 0] :: []))) = false ∧
    (signAndRelay ⟨86400000, 5, ["erd1registry"]⟩ ⟨fun _ => none, fun _ => none⟩
      (fun _ => []) ⟨.throws "ECONNREFUSED", true, "rsig", .error "sim", .error "send"⟩
      10 10 10 (fun _ => none) (fun _ => none)
      ⟨"s", List.replicate 32 0, none, 2, none⟩ none).outcome = .error .unauthorized :=
  authorization_policy_spec (.returns none) ["erd1registry"] "ECONNREFUSED" [0, 0] []
    ⟨86400000, 5, ["erd1registry"]⟩ ⟨fun _ => none, fun _ => none⟩
    (fun _ => []) ⟨.throws "ECONNREFUSED", true, "rsig", .error "sim", .error "send"⟩
    10 10 10 (fun _ => none) (fun _ => none)
    ⟨"s", List.replicate 32 0, none, 2, none⟩ none
    (by decide) (by decide) (by decide) (by decide) (fun n h => by cases h)

/-- The ten possible outcomes of one `signAndRelay` run, shared by the
pipeline theorems below: `ac` is the list of registry calls made by the
authorization gate. -/
def RunShape (cfg : Config) (mgr : RelayerAddressManager)
    (sha256 : String → List Nat) (env : Env) (tCheck tVerify tInc : Int)
    (quota : QuotaState) (chal : ChallengeState) (tx : Tx) (nonce : Option String)
    (ac : List NetCall) : Prop :=
  (signAndRelay cfg mgr sha256 env tCheck tVerify tInc quota chal tx nonce
    = ⟨.error .quotaExceeded, [],
        (checkLimit cfg.resetIntervalMs cfg.quotaLimit tCheck quota tx.senderBech32).2,
        chal, tx.relayerSignature⟩) ∨
  (∃ ch2, signAndRelay cfg mgr sha256 env tCheck tVerify tInc quota chal tx nonce
    = ⟨.error .unauthorized, ac,
        (checkLimit cfg.resetIntervalMs cfg.quotaLimit tCheck quota tx.senderBech32).2,
        ch2, tx.relayerSignature⟩) ∨
  (∃ ch2, signAndRelay cfg mgr sha256 env tCheck tVerify tInc quota chal tx nonce
    = ⟨.error .invalidSignature, ac,
        (checkLimit cfg.resetIntervalMs cfg.quotaLimit tCheck quota tx.senderBech32).2,
        ch2, tx.relayerSignature⟩) ∨
  (∃ m ch2, signAndRelay cfg mgr sha256 env tCheck tVerify tInc quota chal tx nonce
    = ⟨.error (.notFound m), ac,
        (checkLimit cfg.resetIntervalMs cfg.quotaLimit tCheck quota tx.senderBech32).2,
        ch2, tx.relayerSignature⟩) ∨
  (∃ ch2, signAndRelay cfg mgr sha256 env tCheck tVerify tInc quota chal tx nonce
    = ⟨.error .invalidRelayer, ac,
        (checkLimit cfg.resetIntervalMs cfg.quotaLimit tCheck quota tx.senderBech32).2,
        ch2, tx.relayerSignature⟩) ∨
  (∃ ch2, signAndRelay cfg mgr sha256 env tCheck tVerify tInc quota chal tx nonce
    = ⟨.error .invalidVersion, ac,
        (checkLimit cfg.resetIntervalMs cfg.quotaLimit tCheck quota tx.senderBech32).2,
        ch2, tx.relayerSignature⟩) ∨
  (∃ m ch2, env.simOutcome = .error m ∧
    signAndRelay cfg mgr sha256 env tCheck tVerify tInc quota chal tx nonce
    = ⟨.error (.providerError m), ac ++ [.simulate],
        (checkLimit cfg.resetIntervalMs cfg.quotaLimit tCheck quota tx.senderBech32).2,
        ch2, some env.relayerSign⟩) ∨
  (∃ sim ch2, env.simOutcome = .ok sim ∧ simResultStatus sim ≠ some "success" ∧
    signAndRelay cfg mgr sha256 env tCheck tVerify tInc quota chal tx nonce
    = ⟨.error (.simulationFailed (simFailureMessage sim)), ac ++ [.simulate],
        (checkLimit cfg.resetIntervalMs cfg.quotaLimit tCheck quota tx.senderBech32).2,
        ch2, some env.relayerSign⟩) ∨
  (∃ hs ch2, env.sendOutcome = .ok hs ∧
    signAndRelay cfg mgr sha256 env tCheck tVerify tInc quota chal tx nonce
    = ⟨.ok hs, ac ++ [.simulate, .broadcast],
        incrementUsage tInc
          (checkLimit cfg.resetIntervalMs cfg.quotaLimit tCheck quota tx.senderBech32).2
          tx.senderBech32,
        ch2, some env.relayerSign⟩) ∨
  (∃ e ch2, env.sendOutcome = .error e ∧
    signAndRelay cfg mgr sha256 env tCheck tVerify tInc quota chal tx nonce
    = ⟨.error (.broadcastFailed e), ac ++ [.simulate, .broadcast],
        (checkLimit cfg.resetIntervalMs cfg.quotaLimit tCheck quota tx.senderBech32).2,
        ch2, some env.relayerSign⟩)

/-- Case analysis of the stages after a passed authorization gate. -/
lemma signAndRelay_tail (cfg : Config) (mgr : RelayerAddressManager)
    (sha256 : String → List Nat) (env : Env) (tCheck tVerify tInc : Int)
    (quota : QuotaState) (chal : ChallengeState) (tx : Tx) (nonce : Option String)
    (ch2 : ChallengeState)
    (hq1 : (checkLimit cfg.resetIntervalMs cfg.quotaLimit tCheck quota tx.senderBech32).1
      = true)
    (hav : (if isAuthorized cfg.registryAddresses env.queryOutcome then (true, chal)
        else
          match nonce with
          | none => (false, chal)
          | some n => verifySolution sha256 tVerify chal tx.senderBech32 n)
      = (true, ch2)) :
    RunShape cfg mgr sha256 env tCheck tVerify tInc quota chal tx nonce
      (if cfg.registryAddresses.length = 0 then [] else [NetCall.registryQuery]) := by
  unfold RunShape
  cases hsig : env.sigValid with
  | false =>
    exact Or.inr (Or.inr (Or.inl ⟨ch2, by simp [signAndRelay, hq1, hav, hsig]⟩))
  | true =>
    cases hsigner : getSignerForUser mgr tx.senderPubKey with
    | error m =>
      exact Or.inr (Or.inr (Or.inr (Or.inl
        ⟨m, ch2, by simp [signAndRelay, hq1, hav, hsig, hsigner]⟩)))
    | ok addr =>
      cases hrel : relayerMatches tx.relayer addr with
      | false =>
        exact Or.inr (Or.inr (Or.inr (Or.inr (Or.inl
          ⟨ch2, by simp [signAndRelay, hq1, hav, hsig, hsigner, hrel]⟩))))
      | true =>
        by_cases hver : tx.version < 2
        · exact Or.inr (Or.inr (Or.inr (Or.inr (Or.inr (Or.inl
            ⟨ch2, by simp [signAndRelay, hq1, hav, hsig, hsigner, hrel, hver]⟩)))))
        · cases hsim : env.simOutcome with
          | error m =>
            exact Or.inr (Or.inr (Or.inr (Or.inr (Or.inr (Or.inr (Or.inl
              ⟨m, ch2, rfl,
                by simp [signAndRelay, hq1, hav, hsig, hsigner, hrel, hver, hsim]⟩))))))
          | ok sim =>
            by_cases hstat : simResultStatus sim = some "success"
            · cases hsend : env.sendOutcome with
              | ok hsh =>
                exact Or.inr (Or.inr (Or.inr (Or.inr (Or.inr (Or.inr (Or.inr (Or.inr
                  (Or.inl ⟨hsh, ch2, rfl, by simp [signAndRelay, hq1, hav, hsig,
                    hsigner, hrel, hver, hsim, hstat, hsend]⟩))))))))
              | error e =>
                exact Or.inr (Or.inr (Or.inr (Or.inr (Or.inr (Or.inr (Or.inr (Or.inr
                  (Or.inr ⟨e, ch2, rfl, by simp [signAndRelay, hq1, hav, hsig,
                    hsigner, hrel, hver, hsim, hstat, hsend]⟩))))))))
            · exact Or.inr (Or.inr (Or.inr (Or.inr (Or.inr (Or.inr (Or.inr (Or.inl
                ⟨sim, ch2, rfl, hstat, by simp [signAndRelay, hq1, hav, hsig,
                  hsigner, hrel, hver, hsim, hstat]⟩)))))))

/-- Every `signAndRelay` run matches one of the ten shapes, with the
authorization-gate calls empty exactly when no registry is configured. -/
lemma signAndRelay_shape (cfg : Config) (mgr : RelayerAddressManager)
    (sha256 : String → List Nat) (env : Env) (tCheck tVerify tInc : Int)
    (quota : QuotaState) (chal : ChallengeState) (tx : Tx) (nonce : Option String) :
    ∃ ac : List NetCall, (ac = [] ∨ ac = [NetCall.registryQuery]) ∧
      (ac = [] ↔ cfg.registryAddresses.length = 0) ∧
      RunShape cfg mgr sha256 env tCheck tVerify tInc quota chal tx nonce ac := by
  refine ⟨if cfg.registryAddresses.length = 0 then [] else [NetCall.registryQuery],
    by split <;> simp, by split <;> simp_all, ?_⟩
  cases hq1 : (checkLimit cfg.resetIntervalMs cfg.quotaLimit tCheck quota tx.senderBech32).1 with
  | false =>
    exact Or.inl (by simp [signAndRelay, hq1])
  | true =>
    cases hreg : isAuthorized cfg.registryAddresses env.queryOutcome with
    | true =>
      exact signAndRelay_tail cfg mgr sha256 env tCheck tVerify tInc quota chal tx nonce
        chal hq1 (by simp [hreg])
    | false =>
      cases hn : nonce with
      | none =>
        exact Or.inr (Or.inl ⟨chal, by simp [signAndRelay, hq1, hreg]⟩)
      | some n =>
        cases hv : (verifySolution sha256 tVerify chal tx.senderBech32 n).1 with
        | false =>
          exact Or.inr (Or.inl ⟨(verifySolution sha256 tVerify chal tx.senderBech32 n).2,
            by simp [signAndRelay, hq1, hreg, hv]⟩)
        | true =>
          exact signAndRelay_tail cfg mgr sha256 env tCheck tVerify tInc quota chal tx (some n)
            (verifySolution sha256 tVerify chal tx.senderBech32 n).2 hq1
            (by simp [hreg, Prod.ext_iff, hv])

/-- Claim C10: the relayer co-signature is attached before the simulation
step and never rolled back: any run that makes the simulation call, and in
particular any run rejected at the simulation stage (explicit failure or
rethrown provider exception) or at the broadcast stage, leaves the
transaction carrying the attached co-signature. -/
theorem relayer_signature_retained (cfg : Config) (mgr : RelayerAddressManager)
    (sha256 : String → List Nat) (env : Env) (tCheck tVerify tInc : Int)
    (quota : QuotaState) (chal : ChallengeState) (tx : Tx) (nonce : Option String) :
    (∀ m, (signAndRelay cfg mgr sha256 env tCheck tVerify tInc quota chal tx nonce).outcome
        = .error (.simulationFailed m) →
      (signAndRelay cfg mgr sha256 env tCheck tVerify tInc quota chal tx nonce).relayerSignature
        = some env.relayerSign) ∧
    (∀ m, (signAndRelay cfg mgr sha256 env tCheck tVerify tInc quota chal tx nonce).outcome
        = .error (.broadcastFailed m) →
      (signAndRelay cfg mgr sha256 env tCheck tVerify tInc quota chal tx nonce).relayerSignature
        = some env.relayerSign) ∧
    (∀ m, (signAndRelay cfg mgr sha256 env tCheck tVerify tInc quota chal tx nonce).outcome
        = .error (.providerError m) →
      (signAndRelay cfg mgr sha256 env tCheck tVerify tInc quota chal tx nonce).relayerSignature
        = some env.relayerSign) ∧
    (NetCall.simulate ∈ (signAndRelay cfg mgr sha256 env tCheck tVerify tInc
        quota chal tx nonce).calls →
      (signAndRelay cfg mgr sha256 env tCheck tVerify tInc quota chal tx nonce).relayerSignature
        = some env.relayerSign) := by
  obtain ⟨ac, hac, -, h⟩ :=
    signAndRelay_shape cfg mgr sha256 env tCheck tVerify tInc quota chal tx nonce
  unfold RunShape at h
  rcases hac with rfl | rfl <;>
    rcases h with h | ⟨c2, h⟩ | ⟨c2, h⟩ | ⟨m2, c2, h⟩ | ⟨c2, h⟩ | ⟨c2, h⟩ |
      ⟨m2, c2, hc, h⟩ | ⟨sim, c2, hc, hc2, h⟩ | ⟨hs, c2, hc, h⟩ | ⟨e2, c2, hc, h⟩ <;>
    rw [h] <;> exact ⟨fun m hm => by simp_all, fun m hm => by simp_all,
      fun m hm => by simp_all, fun hm => by simp_all⟩

/-- Witness for C10 at a concrete input: an authorized, correctly bound
transaction whose simulation reports a non-success status is rejected at
the simulation stage with the co-signature attached. -/
theorem relayer_signature_retained_witness :
    (signAndRelay ⟨86400000, 5, []⟩ ⟨fun _ => some "erd1rel", fun _ => some "erd1rel"⟩
      (fun _ => []) ⟨.returns none, true, "rsig",
        .ok ⟨none, none, some ⟨some "fail", some "out of gas"⟩, none, none⟩, .error "send"⟩
      10 10 10 (fun _ => none) (fun _ => none)
      ⟨"s", List.replicate 32 0, some "erd1rel", 2, none⟩ none).relayerSignature
      = some "rsig" :=
  (relayer_signature_retained ⟨86400000, 5, []⟩
    ⟨fun _ => some "erd1rel", fun _ => some "erd1rel"⟩
    (fun _ => []) ⟨.returns none, true, "rsig",
      .ok ⟨none, none, some ⟨some "fail", some "out of gas"⟩, none, none⟩, .error "send"⟩
    10 10 10 (fun _ => none) (fun _ => none)
    ⟨"s", List.replicate 32 0, some "erd1rel", 2, none⟩ none).1 "out of gas" rfl

/-- Claim C5: a run whose broadcast call succeeds returns the transaction
hash and applies exactly one quota increment on top of the post-quota-gate
table; a run whose broadcast call fails rejects with the broadcast-failed
error carrying the provider's message and leaves the post-quota-gate table
as is; and every rejected run, at whatever stage, leaves that table without
any increment. -/
theorem broadcast_quota_spec (cfg : Config) (mgr : RelayerAddressManager)
    (sha256 : String → List Nat) (env : Env) (tCheck tVerify tInc : Int)
    (quota : QuotaState) (chal : ChallengeState) (tx : Tx) (nonce : Option String) :
    (∀ h, (signAndRelay cfg mgr sha256 env tCheck tVerify tInc quota chal tx nonce).outcome
        = .ok h →
      env.sendOutcome = .ok h ∧
      (signAndRelay cfg mgr sha256 env tCheck tVerify tInc quota chal tx nonce).quota
        = incrementUsage tInc
            (checkLimit cfg.resetIntervalMs cfg.quotaLimit tCheck quota tx.senderBech32).2
            tx.senderBech32) ∧
    (NetCall.broadcast ∈ (signAndRelay cfg mgr sha256 env tCheck tVerify tInc
        quota chal tx nonce).calls →
      ∀ e, env.sendOutcome = .error e →
        (signAndRelay cfg mgr sha256 env tCheck tVerify tInc quota chal tx nonce).outcome
          = .error (.broadcastFailed e) ∧
        (signAndRelay cfg mgr sha256 env tCheck tVerify tInc quota chal tx nonce).quota
          = (checkLimit cfg.resetIntervalMs cfg.quotaLimit tCheck quota tx.senderBech32).2) ∧
    (∀ e, (signAndRelay cfg mgr sha256 env tCheck tVerify tInc quota chal tx nonce).outcome
        = .error e →
      (signAndRelay cfg mgr sha256 env tCheck tVerify tInc quota chal tx nonce).quota
        = (checkLimit cfg.resetIntervalMs cfg.quotaLimit tCheck quota tx.senderBech32).2) ∧
    (∀ (q : QuotaState) (a : String) (t : Int),
      (incrementUsage t q a) a
        = some ⟨(match q a with | none => 0 | some r => r.count) + 1,
                (match q a with | none => t | some r => r.lastReset)⟩) := by
  have hinc : ∀ (q : QuotaState) (a : String) (t : Int),
      (incrementUsage t q a) a
        = some ⟨(match q a with | none => 0 | some r => r.count) + 1,
                (match q a with | none => t | some r => r.lastReset)⟩ := by
    intro q a t
    cases hqa : q a with
    | none => simp [incrementUsage, hqa, quotaUpdate]
    | some r => simp [incrementUsage, hqa, quotaUpdate]
  obtain ⟨ac, hac, -, h⟩ :=
    signAndRelay_shape cfg mgr sha256 env tCheck tVerify tInc quota chal tx nonce
  unfold RunShape at h
  rcases hac with rfl | rfl <;>
    rcases h with h | ⟨c2, h⟩ | ⟨c2, h⟩ | ⟨m2, c2, h⟩ | ⟨c2, h⟩ | ⟨c2, h⟩ |
      ⟨m2, c2, hc, h⟩ | ⟨sim, c2, hc, hc2, h⟩ | ⟨hs, c2, hc, h⟩ | ⟨e2, c2, hc, h⟩ <;>
    rw [h] <;>
    exact ⟨fun hh hout => by simp_all, fun hm e he => by simp_all,
      fun e he => by simp_all, hinc⟩

/-- Witness for C5 at concrete inputs: a successful broadcast returns the
hash and increments the quota once; with the same pipeline but a failing
broadcast, the run rejects with the broadcast-failed error and leaves the
post-quota-gate table unchanged. -/
theorem broadcast_quota_spec_witness :
    ((⟨.returns none, true, "rsig", .ok ⟨some "success", none, none, none, none⟩,
        .ok "abc123"⟩ : Env).sendOutcome = .ok "abc123" ∧
      (signAndRelay ⟨86400000, 5, []⟩ ⟨fun _ => some "erd1rel", fun _ => some "erd1rel"⟩
        (fun _ => []) ⟨.returns none, true, "rsig",
          .ok ⟨some "success", none, none, none, none⟩, .ok "abc123"⟩ 10 10 10
        (fun _ => none) (fun _ => none)
        ⟨"s", List.replicate 32 0, some "erd1rel", 2, none⟩ none).quota
        = incrementUsage 10 (checkLimit 86400000 5 10 (fun _ => none) "s").2 "s") ∧
    ((signAndRelay ⟨86400000, 5, []⟩ ⟨fun _ => some "erd1rel", fun _ => some "erd1rel"⟩
        (fun _ => []) ⟨.returns none, true, "rsig",
          .ok ⟨some "success", none, none, none, none⟩, .error "ECONNREFUSED"⟩ 10 10 10
        (fun _ => none) (fun _ => none)
        ⟨"s", List.replicate 32 0, some "erd1rel", 2, none⟩ none).outcome
        = .error (.broadcastFailed "ECONNREFUSED") ∧
      (signAndRelay ⟨86400000, 5, []⟩ ⟨fun _ => some "erd1rel", fun _ => some "erd1rel"⟩
        (fun _ => []) ⟨.returns none, true, "rsig",
          .ok ⟨some "success", none, none, none, none⟩, .error "ECONNREFUSED"⟩ 10 10 10
        (fun _ => none) (fun _ => none)
        ⟨"s", List.replicate 32 0, some "erd1rel", 2, none⟩ none).quota
        = (checkLimit 86400000 5 10 (fun _ => none) "s").2) := by
  refine ⟨(broadcast_quota_spec ⟨86400000, 5, []⟩
    ⟨fun _ => some "erd1rel", fun _ => some "erd1rel"⟩ (fun _ => [])
    ⟨.returns none, true, "rsig", .ok ⟨some "success", none, none, none, none⟩,
      .ok "abc123"⟩ 10 10 10 (fun _ => none) (fun _ => none)
    ⟨"s", List.replicate 32 0, some "erd1rel", 2, none⟩ none).1 "abc123" rfl, ?_⟩
  exact (broadcast_quota_spec ⟨86400000, 5, []⟩
    ⟨fun _ => some "erd1rel", fun _ => some "erd1rel"⟩ (fun _ => [])
    ⟨.returns none, true, "rsig", .ok ⟨some "success", none, none, none, none⟩,
      .error "ECONNREFUSED"⟩ 10 10 10 (fun _ => none) (fun _ => none)
    ⟨"s", List.replicate 32 0, some "erd1rel", 2, none⟩ none).2.1
    (by decide) "ECONNREFUSED" rfl

/-- Counterexample to claim C9 at concrete inputs: the pipeline surfaces no
distinct upstream-unavailable category.  A registry query failing with a
connection error is folded into the not-authorized path and, with no
challenge nonce, rejected as unauthorized; a broadcast failing with a
connection error is reported as the broadcast-failed category. -/
theorem upstream_conflation_cex :
    (signAndRelay ⟨86400000, 5, ["erd1registry"]⟩ ⟨fun _ => none, fun _ => none⟩
      (fun _ => []) ⟨.throws "connect ECONNREFUSED", true, "rsig", .error "sim",
        .error "send"⟩ 10 10 10 (fun _ => none) (fun _ => none)
      ⟨"s", List.replicate 32 0, none, 2, none⟩ none).outcome
      = .error .unauthorized ∧
    (signAndRelay ⟨86400000, 5, []⟩ ⟨fun _ => some "erd1rel", fun _ => some "erd1rel"⟩
      (fun _ => []) ⟨.returns none, true, "rsig",
        .ok ⟨some "success", none, none, none, none⟩, .error "connect ECONNREFUSED"⟩
      10 10 10 (fun _ => none) (fun _ => none)
      ⟨"s", List.replicate 32 0, some "erd1rel", 2, none⟩ none).outcome
      = .error (.broadcastFailed "connect ECONNREFUSED") :=
  ⟨rfl, rfl⟩

/-- Claim C9 as amended: each unreachable-upstream failure surfaces through
the category of its stage rather than a dedicated one.  A registry query
that throws makes the sender not authorized, so without a challenge nonce
the run is rejected as unauthorized; a failing broadcast call surfaces as
the broadcast-failed category carrying the provider's message. -/
theorem upstream_errors_surface (cfg : Config) (mgr : RelayerAddressManager)
    (sha256 : String → List Nat) (env : Env) (tCheck tVerify tInc : Int)
    (quota : QuotaState) (chal : ChallengeState) (tx : Tx) (msg : String)
    (hq1 : (checkLimit cfg.resetIntervalMs cfg.quotaLimit tCheck quota tx.senderBech32).1
      = true)
    (hthrow : env.queryOutcome = .throws msg)
    (hrs : cfg.registryAddresses ≠ []) :
    (signAndRelay cfg mgr sha256 env tCheck tVerify tInc quota chal tx none).outcome
      = .error .unauthorized ∧
    (∀ (cfg2 : Config) (mgr2 : RelayerAddressManager) (sha2 : String → List Nat)
        (env2 : Env) (t1 t2 t3 : Int) (quota2 : QuotaState) (chal2 : ChallengeState)
        (tx2 : Tx) (nonce2 : Option String) (e : String),
      NetCall.broadcast ∈ (signAndRelay cfg2 mgr2 sha2 env2 t1 t2 t3
        quota2 chal2 tx2 nonce2).calls →
      env2.sendOutcome = .error e →
      (signAndRelay cfg2 mgr2 sha2 env2 t1 t2 t3 quota2 chal2 tx2 nonce2).outcome
        = .error (.broadcastFailed e)) := by
  constructor
  · have hauth : isAuthorized cfg.registryAddresses env.queryOutcome = false := by
      rw [hthrow]
      simp [isAuthorized, List.length_eq_zero, hrs]
    unfold signAndRelay
    simp only [hq1, hauth]
    simp
  · intro cfg2 mgr2 sha2 env2 t1 t2 t3 quota2 chal2 tx2 nonce2 e hm he
    obtain ⟨ac, hac, -, h⟩ :=
      signAndRelay_shape cfg2 mgr2 sha2 env2 t1 t2 t3 quota2 chal2 tx2 nonce2
    unfold RunShape at h
    rcases hac with rfl | rfl <;>
      rcases h with h | ⟨c2, h⟩ | ⟨c2, h⟩ | ⟨m2, c2, h⟩ | ⟨c2, h⟩ | ⟨c2, h⟩ |
        ⟨m2, c2, hc, h⟩ | ⟨sim, c2, hc, hc2, h⟩ | ⟨hs, c2, hc, h⟩ | ⟨e2, c2, hc, h⟩ <;>
      rw [h] at hm ⊢ <;> simp_all

/-- Witness for the amended C9 at concrete inputs: a registry connection
error plus an in-quota sender yields the unauthorized rejection, and a
broadcast connection error on a run that reached the broadcast call yields
the broadcast-failed rejection. -/
theorem upstream_errors_surface_witness :
    (signAndRelay ⟨86400000, 5, ["erd1registry"]⟩ ⟨fun _ => none, fun _ => none⟩
      (fun _ => []) ⟨.throws "connect EHOSTUNREACH", true, "rsig", .error "sim",
        .error "send"⟩ 10 10 10 (fun _ => none) (fun _ => none)
      ⟨"s", List.replicate 32 0, none, 2, none⟩ none).outcome
      = .error .unauthorized ∧
    (signAndRelay ⟨86400000, 5, []⟩ ⟨fun _ => some "erd1rel", fun _ => some "erd1rel"⟩
      (fun _ => []) ⟨.returns none, true, "rsig",
        .ok ⟨some "success", none, none, none, none⟩, .error "connect EHOSTUNREACH"⟩
      10 10 10 (fun _ => none) (fun _ => none)
      ⟨"s", List.replicate 32 0, some "erd1rel", 2, none⟩ none).outcome
      = .error (.broadcastFailed "connect EHOSTUNREACH") := by
  have h := upstream_errors_surface ⟨86400000, 5, ["erd1registry"]⟩
    ⟨fun _ => none, fun _ => none⟩ (fun _ => [])
    ⟨.throws "connect EHOSTUNREACH", true, "rsig", .error "sim", .error "send"⟩
    10 10 10 (fun _ => none) (fun _ => none)
    ⟨"s", List.replicate 32 0, none, 2, none⟩ "connect EHOSTUNREACH"
    (by decide) rfl (by decide)
  exact ⟨h.1, h.2 ⟨86400000, 5, []⟩ ⟨fun _ => some "erd1rel", fun _ => some "erd1rel"⟩
    (fun _ => []) ⟨.returns none, true, "rsig",
      .ok ⟨some "success", none, none, none, none⟩, .error "connect EHOSTUNREACH"⟩
    10 10 10 (fun _ => none) (fun _ => none)
    ⟨"s", List.replicate 32 0, some "erd1rel", 2, none⟩ none "connect EHOSTUNREACH"
    (by decide) rfl⟩

end Relayer
